import Mathlib

/-!
Verification of the email triage scorer and corpus profiler.

The definitions below are a shallow embedding of the Python sources:
  - `email_analyzer.py` (class `EmailAnalyzer`): `analyze_email`,
    `_categorize_email`, `_check_spam_indicators`,
    `_extract_features_from_training_data`;
  - `data_processor.py` (class `DataProcessor`): `get_training_data`;
  - `models.py` (class `UserPreference`): `get_whitelist`, `get_blacklist`.

Strings are modelled as `List Char`; Python float scores are modelled as `ℚ`
(all constants in the source are decimal literals, and every operation used on
scores - addition, subtraction, `max`, `min`, comparison - is exact on these
values, so the control flow is identical).  Python `set` iteration order is
modelled by first-occurrence order (the source's use of set order is flagged
as unspecified in its own design notes; no theorem below depends on it).
-/

/-- Strings are lists of characters. -/
abbrev Str := List Char

/-- Convert a Lean string literal into the `Str` model. -/
def chars (s : String) : Str := s.data

/-- The apostrophe character (used by the urgency keyword list). -/
def apos : Char := Char.ofNat 39

/-- Python `str.lower()` (character-wise lowercasing). -/
def lowerStr (s : Str) : Str := s.map Char.toLower

/-- Does `s` start with `pat`? -/
def startsWithSub : Str → Str → Bool
  | [], _ => true
  | _ :: _, [] => false
  | a :: as, b :: bs => a == b && startsWithSub as bs

/-- Python containment test `pat in s` (contiguous substring). -/
def containsSub (pat : Str) : Str → Bool
  | [] => startsWithSub pat []
  | c :: rest => startsWithSub pat (c :: rest) || containsSub pat rest

/-- Python `s.endswith(pat)`. -/
def endsWithSub (pat s : Str) : Bool := startsWithSub pat.reverse s.reverse

/-- Python `sender.split(sep)[-1]`: the substring after the last occurrence of
`sep`, or the whole string when `sep` does not occur. -/
def afterLastSplit (sep : Char) (s : Str) : Str :=
  s.foldl (fun acc c => if c = sep then [] else acc ++ [c]) []

/-- Count occurrences of a character (Python `s.count(c)`). -/
def countChar (c : Char) (s : Str) : Nat := (s.filter (fun d => d = c)).length

/-- Python `str.isupper()`: at least one cased character and no lowercase
cased character (ASCII reading). -/
def pyIsUpper (s : Str) : Bool :=
  s.any (fun c => c.isUpper || c.isLower) && s.all (fun c => !c.isLower)

/-- A regex `\w` word character: alphanumeric or underscore. -/
def isWordChar (c : Char) : Bool := c.isAlphanum || c = '_'

/-- Helper for `tokenize`: `cur` is the word currently being read. -/
def tokenizeAux : Str → Str → List Str
  | [], cur => if cur = [] then [] else [cur]
  | c :: rest, cur =>
      if isWordChar c then tokenizeAux rest (cur ++ [c])
      else if cur = [] then tokenizeAux rest []
      else cur :: tokenizeAux rest []

/-- Python `re.findall(r'\b\w+\b', s)`: the maximal runs of word characters. -/
def tokenize (s : Str) : List Str := tokenizeAux s []

/-- Helper for `dedupFirst` carrying the set of already-seen elements. -/
def dedupFirstAux : List Str → List Str → List Str
  | _, [] => []
  | seen, x :: rest =>
      if x ∈ seen then dedupFirstAux seen rest
      else x :: dedupFirstAux (x :: seen) rest

/-- Remove duplicates keeping first occurrences (deterministic model of a
Python `set` built from a list). -/
def dedupFirst (l : List Str) : List Str := dedupFirstAux [] l

/-- Helper for `splitComma`. -/
def splitCommaAux : Str → Str → List Str
  | [], cur => [cur]
  | c :: rest, cur =>
      if c = ',' then cur :: splitCommaAux rest []
      else splitCommaAux rest (cur ++ [c])

/-- Python `s.split(',')`. -/
def splitComma (s : Str) : List Str := splitCommaAux s []

/-- Python `s.strip()` (drop leading and trailing whitespace). -/
def stripChars (s : Str) : Str :=
  ((s.dropWhile Char.isWhitespace).reverse.dropWhile Char.isWhitespace).reverse

/-- Characters allowed by the URL regex class `[-\w.]`. -/
def isUrlChar (c : Char) : Bool := c.isAlphanum || c = '_' || c = '-' || c = '.'

/-- A regex `[\da-fA-F]` hexadecimal digit. -/
def isHexChar (c : Char) : Bool :=
  c.isDigit || ('a' ≤ c && c ≤ 'f') || ('A' ≤ c && c ≤ 'F')

/-- Greedily consume characters matching `(?:[-\w.]|%[\da-fA-F]{2})+` and
return the consumed run together with the leftover input. -/
def takeUrlChars : Str → Str × Str
  | [] => ([], [])
  | c :: rest =>
      if isUrlChar c then
        let p := takeUrlChars rest
        (c :: p.1, p.2)
      else if c = '%' then
        match rest with
        | h1 :: h2 :: rest2 =>
            if isHexChar h1 && isHexChar h2 then
              let p := takeUrlChars rest2
              ('%' :: h1 :: h2 :: p.1, p.2)
            else ([], c :: rest)
        | _ => ([], c :: rest)
      else ([], c :: rest)

/-- Try to match the URL regex `https?://(?:[-\w.]|(?:%[\da-fA-F]{2}))+` at
the start of `s`; on success return the match and the leftover input. -/
def tryUrlAt (s : Str) : Option (Str × Str) :=
  if startsWithSub (chars "https://") s then
    let p := takeUrlChars (s.drop 8)
    if p.1 = [] then none else some (chars "https://" ++ p.1, p.2)
  else if startsWithSub (chars "http://") s then
    let p := takeUrlChars (s.drop 7)
    if p.1 = [] then none else some (chars "http://" ++ p.1, p.2)
  else none

/-- Fuelled scanner underlying `findUrls` (the fuel is an upper bound on the
number of scanning steps; each step consumes at least one character). -/
def findUrlsAux : Nat → Str → List Str
  | 0, _ => []
  | _, [] => []
  | fuel + 1, c :: rest =>
      match tryUrlAt (c :: rest) with
      | some p => p.1 :: findUrlsAux fuel p.2
      | none => findUrlsAux fuel rest

/-- Python `re.findall(r'https?://(?:[-\w.]|(?:%[\da-fA-F]{2}))+', body)`:
left-to-right, non-overlapping matches. -/
def findUrls (s : Str) : List Str := findUrlsAux s.length s

/-- Drop everything up to and including the first occurrence of `pat`
(used to model `urlparse(url).netloc` on a regex match, whose authority part
is exactly what follows the scheme separator). -/
def dropThroughSub (pat : Str) : Str → Str
  | [] => []
  | c :: rest =>
      if startsWithSub pat (c :: rest) then (c :: rest).drop pat.length
      else dropThroughSub pat rest

/-- `urlparse(url).netloc` for a URL produced by `findUrls` (the matched
characters after the scheme can contain no `/`, `?` or fragment, so the
netloc is the whole remainder after the scheme separator). -/
def netlocOf (url : Str) : Str := dropThroughSub (chars "://") url

/-- The analysis verdict: the `results` dict of `analyze_email`
(`email_analyzer.py` lines 42-50). -/
structure Verdict where
  is_spam : Bool
  is_important : Bool
  is_university_notice : Bool
  category : Str
  priority_score : ℚ
  spam_indicators : List Str
  importance_indicators : List Str
deriving DecidableEq, Repr

/-- The scorer state: the feature sets held by class `EmailAnalyzer`
(`email_analyzer.py` lines 21-23), modelled as lists in first-occurrence
order (the source stores Python sets; only membership is consumed). -/
structure EmailAnalyzer where
  spam_keywords : List Str
  university_keywords : List Str
  common_spam_domains : List Str
deriving DecidableEq, Repr

/-- A user's scoring policy: the fields of `UserPreference` consumed by
`analyze_email` (`models.py` lines 44-47). `whitelist` and `blacklist`
hold raw comma-separated text, as in the source. -/
structure UserPreference where
  whitelist : Str
  blacklist : Str
  priority_threshold : ℚ
deriving DecidableEq, Repr

/-- `UserPreference.get_whitelist` (`models.py` lines 49-50). -/
def get_whitelist (p : UserPreference) : List Str :=
  ((splitComma p.whitelist).map stripChars).filter (fun x => x ≠ [])

/-- `UserPreference.get_blacklist` (`models.py` lines 52-53). -/
def get_blacklist (p : UserPreference) : List Str :=
  ((splitComma p.blacklist).map stripChars).filter (fun x => x ≠ [])

/-- The educational domain suffixes (`email_analyzer.py` line 15). -/
def edu_domains : List Str :=
  [chars ".edu", chars ".ac.uk", chars ".edu.au", chars ".ac.nz", chars ".edu.sg"]

/-- Academic category keywords (`email_analyzer.py` line 164). -/
def academic_words : List Str :=
  [chars "assignment", chars "homework", chars "course", chars "lecture",
   chars "class", chars "professor", chars "syllabus"]

/-- Administrative category keywords (`email_analyzer.py` line 168). -/
def administrative_words : List Str :=
  [chars "tuition", chars "registration", chars "enrollment",
   chars "transcript", chars "admin", chars "policy"]

/-- Event category keywords (`email_analyzer.py` line 172). -/
def event_words : List Str :=
  [chars "event", chars "seminar", chars "workshop", chars "conference",
   chars "ceremony", chars "meeting"]

/-- Deadline category keywords (`email_analyzer.py` line 176). -/
def deadline_words : List Str :=
  [chars "deadline", chars "due date", chars "by tomorrow", chars "by friday",
   chars "submission"]

/-- Personal category keywords (`email_analyzer.py` line 180). -/
def personal_words : List Str :=
  [chars "hello", chars "hi", chars "hey", chars "personal",
   chars "question", chars "regarding your"]

/-- Urgency keywords (`email_analyzer.py` line 127). -/
def urgency_words : List Str :=
  [chars "urgent", chars "important", chars "deadline", chars "due",
   chars "reminder", chars "don" ++ [apos] ++ chars "t forget",
   chars "action required"]

/-- University portal phrases (`email_analyzer.py` line 134). -/
def portal_phrases : List Str :=
  [chars "check the university portal", chars "portal for more information",
   chars "login to the portal"]

/-- Suspicious spam phrases (`email_analyzer.py` lines 201-204). -/
def suspicious_phrases : List Str :=
  [chars "free money", chars "you won", chars "lottery",
   chars "million dollars", chars "nigerian prince", chars "wire transfer",
   chars "urgent attention", chars "claim your prize"]

/-- Suspicious URL top-level domains (`email_analyzer.py` line 216). -/
def suspicious_tlds : List Str :=
  [chars ".xyz", chars ".info", chars ".tk", chars ".ml", chars ".ga"]

/-- The categories treated as important (`email_analyzer.py` lines 101, 105). -/
def important_categories : List Str :=
  [chars "Academic", chars "Administrative", chars "Deadline"]

/-- The initial `results` dict (`email_analyzer.py` lines 42-50). -/
def initial_results : Verdict :=
  { is_spam := false, is_important := false, is_university_notice := false,
    category := chars "Other", priority_score := 0,
    spam_indicators := [], importance_indicators := [] }

/-- The whitelist indicator message (`email_analyzer.py` line 62). -/
def whitelist_msg (sender : Str) : Str :=
  chars "Sender " ++ sender ++ chars " is in your whitelist"

/-- The blacklist indicator message (`email_analyzer.py` line 69). -/
def blacklist_msg (sender : Str) : Str :=
  chars "Sender " ++ sender ++ chars " is in your blacklist"

/-- The spam-domain indicator message (`email_analyzer.py` line 78). -/
def spam_domain_msg (dom : Str) : Str :=
  chars "Sender domain " ++ dom ++ chars " is known for spam emails"

/-- The educational-domain indicator message (`email_analyzer.py` line 84). -/
def edu_msg (dom : Str) : Str :=
  chars "Sender from educational domain: " ++ dom

/-- The important-category indicator message (`email_analyzer.py` line 107). -/
def important_category_msg (c : Str) : Str :=
  chars "Important category: " ++ c

/-- The spam-content indicator message (`email_analyzer.py` lines 117-118). -/
def spam_content_msg (ws : Str) : Str :=
  chars "Spam-related content detected: " ++ [apos] ++ ws ++ chars "..." ++ [apos]

/-- The whitelist loop of `analyze_email` (`email_analyzer.py` lines 58-62). -/
def applyWhitelist (sender : Str) : List Str → Verdict → Verdict
  | [], r => r
  | trusted :: rest, r =>
      applyWhitelist sender rest
        (if containsSub (lowerStr trusted) (lowerStr sender) then
          { r with is_important := true, priority_score := 0.9,
                   importance_indicators :=
                     r.importance_indicators ++ [whitelist_msg sender] }
        else r)

/-- The blacklist loop of `analyze_email` (`email_analyzer.py` lines 65-69). -/
def applyBlacklist (sender : Str) : List Str → Verdict → Verdict
  | [], r => r
  | blocked :: rest, r =>
      applyBlacklist sender rest
        (if containsSub (lowerStr blocked) (lowerStr sender) then
          { r with is_spam := true, priority_score := 0.1,
                   spam_indicators := r.spam_indicators ++ [blacklist_msg sender] }
        else r)

/-- The preference block of `analyze_email` (`email_analyzer.py` lines 53-69). -/
def applyPreferences (sender : Str) : Option UserPreference → Verdict → Verdict
  | none, r => r
  | some p, r => applyBlacklist sender (get_blacklist p) (applyWhitelist sender (get_whitelist p) r)

/-- `sender.split('@')[-1].lower()` (`email_analyzer.py` line 72). -/
def sender_domain (sender : Str) : Str := lowerStr (afterLastSplit '@' sender)

/-- The known-spam-domain check (`email_analyzer.py` lines 75-78). -/
def applySpamDomainCheck (st : EmailAnalyzer) (dom : Str) (r : Verdict) : Verdict :=
  if dom ∈ st.common_spam_domains then
    { r with is_spam := true, priority_score := r.priority_score - 0.4,
             spam_indicators := r.spam_indicators ++ [spam_domain_msg dom] }
  else r

/-- The educational-domain bonus (`email_analyzer.py` lines 81-84). -/
def applyEduCheck (dom : Str) (r : Verdict) : Verdict :=
  if edu_domains.any (fun d => containsSub d dom) then
    { r with priority_score := r.priority_score + 0.5,
             importance_indicators := r.importance_indicators ++ [edu_msg dom] }
  else r

/-- `EmailAnalyzer._categorize_email` (`email_analyzer.py` lines 157-183). -/
def categorize_email (subject body : Str) : Str :=
  let combined := lowerStr subject ++ [' '] ++ lowerStr body
  if academic_words.any (fun w => containsSub w combined) then chars "Academic"
  else if administrative_words.any (fun w => containsSub w combined) then chars "Administrative"
  else if event_words.any (fun w => containsSub w combined) then chars "Event"
  else if deadline_words.any (fun w => containsSub w combined) then chars "Deadline"
  else if personal_words.any (fun w => containsSub w combined) then chars "Personal"
  else chars "Other"

/-- The categorization assignment (`email_analyzer.py` line 87). -/
def applyCategorize (subject body : Str) (r : Verdict) : Verdict :=
  { r with category := categorize_email subject body }

/-- `set(re.findall(r'\b\w+\b', (subject + " " + body).lower()))`
(`email_analyzer.py` lines 91-92 and 111-112), as a duplicate-free list in
first-occurrence order. -/
def textWords (subject body : Str) : List Str :=
  dedupFirst (tokenize (lowerStr (subject ++ [' '] ++ body)))

/-- The university-notice keyword step (`email_analyzer.py` lines 90-102). -/
def applyUniversityKeywords (st : EmailAnalyzer) (subject body : Str) (r : Verdict) : Verdict :=
  if st.university_keywords ≠ [] then
    let university_matches :=
      (textWords subject body).filter (fun w => w ∈ st.university_keywords)
    if 3 ≤ university_matches.length then
      let r1 := { r with is_university_notice := true,
                         priority_score := r.priority_score + 0.3,
                         importance_indicators := r.importance_indicators ++
                           [chars "University notice detected based on content"] }
      if r1.category ∈ important_categories then r1
      else { r1 with category := chars "Administrative" }
    else r
  else r

/-- The important-category bonus (`email_analyzer.py` lines 105-107). -/
def applyCategoryBonus (r : Verdict) : Verdict :=
  if r.category ∈ important_categories then
    { r with priority_score := r.priority_score + 0.3,
             importance_indicators := r.importance_indicators ++
               [important_category_msg r.category] }
  else r

/-- The spam keyword step (`email_analyzer.py` lines 110-118). -/
def applySpamKeywords (st : EmailAnalyzer) (subject body : Str) (r : Verdict) : Verdict :=
  if st.spam_keywords ≠ [] then
    let spam_matches :=
      (textWords subject body).filter (fun w => w ∈ st.spam_keywords)
    if 3 ≤ spam_matches.length then
      { r with priority_score := r.priority_score - 0.3,
               spam_indicators := r.spam_indicators ++
                 [spam_content_msg (List.intercalate (chars ", ") (spam_matches.take 3))] }
    else r
  else r

/-- `EmailAnalyzer._check_spam_indicators` with its local `spam_indicators`
list (`email_analyzer.py` lines 185-221): the pair is (`spam_score`, the
`spam_indicators` list built inside the function). -/
def check_spam_indicators_full (subject body : Str) : ℚ × List Str :=
  let s0 : ℚ × List Str := (0, [])
  let s1 :=
    if 2 < countChar '!' subject then
      (s0.1 + 0.1, s0.2 ++ [chars "Excessive exclamation marks in subject"])
    else s0
  let s2 :=
    if pyIsUpper subject ∧ 10 < subject.length then
      (s1.1 + 0.2, s1.2 ++ [chars "All caps in subject"])
    else s1
  let combined := lowerStr (subject ++ [' '] ++ body)
  let s3 := suspicious_phrases.foldl (fun s phrase =>
    if containsSub phrase combined then
      (s.1 + 0.3, s.2 ++ [chars "Suspicious phrase detected: " ++ phrase])
    else s) s2
  (findUrls body).foldl (fun s url =>
    let dom := netlocOf url
    if suspicious_tlds.any (fun tld => endsWithSub tld dom) then
      (s.1 + 0.2, s.2 ++ [chars "Suspicious URL domain: " ++ dom])
    else s) s3

/-- The value actually returned by `_check_spam_indicators`
(`email_analyzer.py` line 221): only the score; the indicator list built
inside the function is discarded. -/
def check_spam_indicators (subject body : Str) : ℚ :=
  (check_spam_indicators_full subject body).1

/-- The structural spam gate (`email_analyzer.py` lines 121-124). -/
def applySpamGate (subject body : Str) (r : Verdict) : Verdict :=
  let spam_score := check_spam_indicators subject body
  if 0.5 < spam_score then
    { r with is_spam := true,
             priority_score := max 0 (r.priority_score - spam_score) }
  else r

/-- The urgency bonus (`email_analyzer.py` lines 127-131). -/
def applyUrgency (subject : Str) (r : Verdict) : Verdict :=
  if urgency_words.any (fun w => containsSub w (lowerStr subject)) then
    if !r.is_spam then
      { r with priority_score := r.priority_score + 0.1,
               importance_indicators := r.importance_indicators ++
                 [chars "Urgency indicated in subject"] }
    else r
  else r

/-- Does the lowercased body contain a university portal phrase
(`email_analyzer.py` line 135)? -/
def portalHit (body : Str) : Bool :=
  portal_phrases.any (fun ph => containsSub ph (lowerStr body))

/-- The portal-phrase override (`email_analyzer.py` lines 134-138). -/
def applyPortal (body : Str) (r : Verdict) : Verdict :=
  if portalHit body then
    { r with is_university_notice := true,
             priority_score := r.priority_score + 0.2,
             importance_indicators := r.importance_indicators ++
               [chars "References university portal"] }
  else r

/-- The university-importance lock (`email_analyzer.py` lines 141-143). -/
def applyUniversityLock (r : Verdict) : Verdict :=
  if r.is_university_notice && !r.is_spam then
    { r with is_important := true, priority_score := max r.priority_score 0.7 }
  else r

/-- The effective importance threshold (`email_analyzer.py` lines 146-148). -/
def thresholdOf : Option UserPreference → ℚ
  | none => 0.7
  | some p => p.priority_threshold

/-- The final importance decision and clamp (`email_analyzer.py`
lines 150-153): `is_important` is computed from the pre-clamp score, then
the score is clamped into [0, 1]. -/
def finalize (threshold : ℚ) (r : Verdict) : Verdict :=
  let r1 := { r with is_important := decide (threshold ≤ r.priority_score) }
  { r1 with priority_score := max 0 (min 1 r1.priority_score) }

/-- The verdict just before the final importance decision and clamp: the
state of `results` after `email_analyzer.py` line 143, as the sequential
composition of the step functions above, in source order. -/
def preFinal (st : EmailAnalyzer) (sender subject body : Str)
    (user_preferences : Option UserPreference) : Verdict :=
  let dom := sender_domain sender
  applyUniversityLock
    (applyPortal body
      (applyUrgency subject
        (applySpamGate subject body
          (applySpamKeywords st subject body
            (applyCategoryBonus
              (applyUniversityKeywords st subject body
                (applyCategorize subject body
                  (applyEduCheck dom
                    (applySpamDomainCheck st dom
                      (applyPreferences sender user_preferences initial_results))))))))))

/-- `EmailAnalyzer.analyze_email` (`email_analyzer.py` lines 29-155). -/
def analyze_email (st : EmailAnalyzer) (sender subject body : Str)
    (user_preferences : Option UserPreference) : Verdict :=
  finalize (thresholdOf user_preferences)
    (preFinal st sender subject body user_preferences)

/-- A processed training record: the `email_data` dict built by
`DataProcessor.get_training_data` (`data_processor.py` lines 89-94). -/
structure EmailData where
  sender : Str
  subject : Str
  body : Str
  date : Str
deriving DecidableEq, Repr

/-- A raw dataset row with fields `email, subject, body, date, label`
(`data_processor.py` lines 88-97); `none` models a missing (NaN) value. -/
structure Row where
  email : Option Str
  subject : Option Str
  body : Option Str
  date : Option Str
  label : Str
deriving DecidableEq, Repr

/-- The categorized training corpus: the `training_data` dict of
`DataProcessor.get_training_data` (`data_processor.py` lines 81-85). -/
structure TrainingData where
  spam : List EmailData
  ham : List EmailData
  university_notice : List EmailData
deriving DecidableEq, Repr

/-- Build the `email_data` dict from a row, defaulting missing values to the
empty string (`data_processor.py` lines 89-94). -/
def emailDataOfRow (row : Row) : EmailData :=
  { sender := row.email.getD [], subject := row.subject.getD [],
    body := row.body.getD [], date := row.date.getD [] }

/-- `DataProcessor.get_training_data` (`data_processor.py` lines 69-104):
each row is matched case-insensitively against the labels `spam`, `ham` and
`university notice` (with a space); rows with any other label are skipped. -/
def get_training_data : List Row → TrainingData
  | [] => { spam := [], ham := [], university_notice := [] }
  | row :: rest =>
      let td := get_training_data rest
      if lowerStr row.label = chars "spam" then
        { td with spam := emailDataOfRow row :: td.spam }
      else if lowerStr row.label = chars "ham" then
        { td with ham := emailDataOfRow row :: td.ham }
      else if lowerStr row.label = chars "university notice" then
        { td with university_notice := emailDataOfRow row :: td.university_notice }
      else td

/-- Does a row's label match one of the three recognized labels
(the disjunction of the `elif` tests of `data_processor.py` lines 97-101)? -/
def isRecognizedLabel (label : Str) : Bool :=
  lowerStr label = chars "spam" ∨ lowerStr label = chars "ham" ∨
    lowerStr label = chars "university notice"

/-- One counting step of the `collections.Counter` model: bump the entry for
`d`, or append a fresh `(d, 1)` entry. -/
def countStep (acc : List (Str × Nat)) (d : Str) : List (Str × Nat) :=
  if acc.any (fun p => p.1 = d) then
    acc.map (fun p => if p.1 = d then (p.1, p.2 + 1) else p)
  else acc ++ [(d, 1)]

/-- A frequency table in first-occurrence order: the model of
`collections.Counter` built from a list (`email_analyzer.py` line 255). -/
def countOccurrences (l : List Str) : List (Str × Nat) :=
  l.foldl countStep []

/-- The ordering used by `Counter.most_common`: descending count. -/
def byCountDesc (a b : Str × Nat) : Prop := b.2 ≤ a.2

instance : DecidableRel byCountDesc :=
  fun a b => inferInstanceAs (Decidable (b.2 ≤ a.2))

instance : IsTotal (Str × Nat) byCountDesc :=
  ⟨fun a b => Nat.le_total b.2 a.2⟩

instance : IsTrans (Str × Nat) byCountDesc :=
  ⟨fun _ _ _ hab hbc => Nat.le_trans hbc hab⟩

/-- `Counter.most_common(n)`: the table stably sorted by descending count,
truncated to the first `n` entries (`email_analyzer.py` line 256). -/
def most_common (n : Nat) (counts : List (Str × Nat)) : List (Str × Nat) :=
  (List.insertionSort byCountDesc counts).take n

/-- The `spam_domains` list collected by
`EmailAnalyzer._extract_features_from_training_data` (`email_analyzer.py`
lines 244-248): for each spam record, the lowercased substring after the
last `@` of the sender; a sender containing no `@` is skipped. -/
def spamDomainsOf (spam : List EmailData) : List Str :=
  spam.filterMap (fun e =>
    if '@' ∈ e.sender then some (lowerStr (afterLastSplit '@' e.sender))
    else none)

/-- The `common_spam_domains` feature set (`email_analyzer.py` lines 231,
254-256), as a list in `most_common` order; the source wraps the same ten
domains in a `set`, consuming only membership. -/
def extract_common_spam_domains (spam : List EmailData) : List Str :=
  if spam = [] then []
  else (most_common 10 (countOccurrences (spamDomainsOf spam))).map (fun p => p.1)

/-- The word list collected from subjects and bodies of a list of training
records: lowercased `\w+` tokens of length > 3, in record order
(`email_analyzer.py` lines 236-242 and 263-269). -/
def trainingWords (emails : List EmailData) : List Str :=
  (emails.map (fun e =>
    (tokenize (lowerStr e.subject ++ [' '] ++ lowerStr e.body)).filter
      (fun w => 3 < w.length))).flatten

/-- The `spam_keywords` feature set (`email_analyzer.py` lines 250-252). -/
def extract_spam_keywords (spam : List EmailData) : List Str :=
  if spam = [] then []
  else (most_common 50 (countOccurrences (trainingWords spam))).map (fun p => p.1)

/-- The `university_keywords` feature set (`email_analyzer.py`
lines 259-273). -/
def extract_university_keywords (uni : List EmailData) : List Str :=
  if uni = [] then []
  else (most_common 50 (countOccurrences (trainingWords uni))).map (fun p => p.1)

/-- `EmailAnalyzer._extract_features_from_training_data` (`email_analyzer.py`
lines 223-277) applied to a categorized corpus. -/
def analyzerOfTrainingData (td : TrainingData) : EmailAnalyzer :=
  { spam_keywords := extract_spam_keywords td.spam,
    university_keywords := extract_university_keywords td.university_notice,
    common_spam_domains := extract_common_spam_domains td.spam }

/-- The spec's description of `deriveDomainProfile` (spec section 4.1), used
for comparison against the source-derived `extract_common_spam_domains`: the
spec says the domain is the substring after the last `@`, *or the full
sender string when the sender contains no `@`*. -/
def deriveDomainProfile_specVersion (spam : List EmailData) : List Str :=
  (most_common 10 (countOccurrences (spam.map (fun e =>
    if '@' ∈ e.sender then lowerStr (afterLastSplit '@' e.sender)
    else lowerStr e.sender)))).map (fun p => p.1)

/-! ### Frame lemmas: which verdict fields each scoring step can touch -/

theorem applyWhitelist_is_spam (sender : Str) (wl : List Str) (r : Verdict) :
    (applyWhitelist sender wl r).is_spam = r.is_spam := by
  induction wl generalizing r with
  | nil => rfl
  | cons t ts ih =>
      simp only [applyWhitelist]
      rw [ih]
      split <;> rfl

theorem applyWhitelist_is_university_notice (sender : Str) (wl : List Str) (r : Verdict) :
    (applyWhitelist sender wl r).is_university_notice = r.is_university_notice := by
  induction wl generalizing r with
  | nil => rfl
  | cons t ts ih =>
      simp only [applyWhitelist]
      rw [ih]
      split <;> rfl

theorem applyWhitelist_category (sender : Str) (wl : List Str) (r : Verdict) :
    (applyWhitelist sender wl r).category = r.category := by
  induction wl generalizing r with
  | nil => rfl
  | cons t ts ih =>
      simp only [applyWhitelist]
      rw [ih]
      split <;> rfl

theorem applyBlacklist_is_spam (sender : Str) (bl : List Str) (r : Verdict) :
    (applyBlacklist sender bl r).is_spam
      = (r.is_spam || bl.any (fun b => containsSub (lowerStr b) (lowerStr sender))) := by
  induction bl generalizing r with
  | nil => simp [applyBlacklist]
  | cons b bs ih =>
      simp only [applyBlacklist, List.any_cons]
      rw [ih]
      by_cases h : containsSub (lowerStr b) (lowerStr sender) = true
      · simp [h]
      · simp [h]

theorem applyBlacklist_is_university_notice (sender : Str) (bl : List Str) (r : Verdict) :
    (applyBlacklist sender bl r).is_university_notice = r.is_university_notice := by
  induction bl generalizing r with
  | nil => rfl
  | cons b bs ih =>
      simp only [applyBlacklist]
      rw [ih]
      split <;> rfl

theorem applyBlacklist_category (sender : Str) (bl : List Str) (r : Verdict) :
    (applyBlacklist sender bl r).category = r.category := by
  induction bl generalizing r with
  | nil => rfl
  | cons b bs ih =>
      simp only [applyBlacklist]
      rw [ih]
      split <;> rfl

theorem applyPreferences_is_university_notice (sender : Str) (prefs : Option UserPreference) (r : Verdict) :
    (applyPreferences sender prefs r).is_university_notice = r.is_university_notice := by
  cases prefs with
  | none => rfl
  | some p =>
      simp only [applyPreferences]
      rw [applyBlacklist_is_university_notice, applyWhitelist_is_university_notice]

theorem applyPreferences_category (sender : Str) (prefs : Option UserPreference) (r : Verdict) :
    (applyPreferences sender prefs r).category = r.category := by
  cases prefs with
  | none => rfl
  | some p =>
      simp only [applyPreferences]
      rw [applyBlacklist_category, applyWhitelist_category]

theorem applySpamDomainCheck_is_spam (st : EmailAnalyzer) (dom : Str) (r : Verdict) :
    (applySpamDomainCheck st dom r).is_spam
      = (r.is_spam || decide (dom ∈ st.common_spam_domains)) := by
  unfold applySpamDomainCheck
  split <;> simp [*]

theorem applySpamDomainCheck_is_university_notice (st : EmailAnalyzer) (dom : Str) (r : Verdict) :
    (applySpamDomainCheck st dom r).is_university_notice = r.is_university_notice := by
  unfold applySpamDomainCheck
  split <;> rfl

theorem applySpamDomainCheck_category (st : EmailAnalyzer) (dom : Str) (r : Verdict) :
    (applySpamDomainCheck st dom r).category = r.category := by
  unfold applySpamDomainCheck
  split <;> rfl

theorem applyEduCheck_is_spam (dom : Str) (r : Verdict) :
    (applyEduCheck dom r).is_spam = r.is_spam := by
  unfold applyEduCheck
  split <;> rfl

theorem applyEduCheck_is_university_notice (dom : Str) (r : Verdict) :
    (applyEduCheck dom r).is_university_notice = r.is_university_notice := by
  unfold applyEduCheck
  split <;> rfl

theorem applyEduCheck_category (dom : Str) (r : Verdict) :
    (applyEduCheck dom r).category = r.category := by
  unfold applyEduCheck
  split <;> rfl

theorem applyCategorize_is_spam (subject body : Str) (r : Verdict) :
    (applyCategorize subject body r).is_spam = r.is_spam := rfl

theorem applyCategorize_is_university_notice (subject body : Str) (r : Verdict) :
    (applyCategorize subject body r).is_university_notice = r.is_university_notice := rfl

theorem applyCategorize_category (subject body : Str) (r : Verdict) :
    (applyCategorize subject body r).category = categorize_email subject body := rfl

theorem applyUniversityKeywords_is_spam (st : EmailAnalyzer) (subject body : Str) (r : Verdict) :
    (applyUniversityKeywords st subject body r).is_spam = r.is_spam := by
  unfold applyUniversityKeywords
  dsimp only
  repeat' split
  all_goals rfl

theorem applyUniversityKeywords_untrained (st : EmailAnalyzer) (subject body : Str) (r : Verdict)
    (h : st.university_keywords = []) :
    applyUniversityKeywords st subject body r = r := by
  unfold applyUniversityKeywords
  simp [h]

theorem applyUniversityKeywords_category_important (st : EmailAnalyzer) (subject body : Str)
    (r : Verdict) (h : r.category ∈ important_categories) :
    (applyUniversityKeywords st subject body r).category = r.category := by
  unfold applyUniversityKeywords
  dsimp only
  repeat' split
  all_goals rfl

theorem applyCategoryBonus_is_spam (r : Verdict) :
    (applyCategoryBonus r).is_spam = r.is_spam := by
  unfold applyCategoryBonus
  split <;> rfl

theorem applyCategoryBonus_is_university_notice (r : Verdict) :
    (applyCategoryBonus r).is_university_notice = r.is_university_notice := by
  unfold applyCategoryBonus
  split <;> rfl

theorem applyCategoryBonus_category (r : Verdict) :
    (applyCategoryBonus r).category = r.category := by
  unfold applyCategoryBonus
  split <;> rfl

theorem applySpamKeywords_is_spam (st : EmailAnalyzer) (subject body : Str) (r : Verdict) :
    (applySpamKeywords st subject body r).is_spam = r.is_spam := by
  unfold applySpamKeywords
  dsimp only
  repeat' split
  all_goals rfl

theorem applySpamKeywords_is_university_notice (st : EmailAnalyzer) (subject body : Str) (r : Verdict) :
    (applySpamKeywords st subject body r).is_university_notice = r.is_university_notice := by
  unfold applySpamKeywords
  dsimp only
  repeat' split
  all_goals rfl

theorem applySpamKeywords_category (st : EmailAnalyzer) (subject body : Str) (r : Verdict) :
    (applySpamKeywords st subject body r).category = r.category := by
  unfold applySpamKeywords
  dsimp only
  repeat' split
  all_goals rfl

theorem applySpamKeywords_untrained (st : EmailAnalyzer) (subject body : Str) (r : Verdict)
    (h : st.spam_keywords = []) :
    applySpamKeywords st subject body r = r := by
  unfold applySpamKeywords
  simp [h]

theorem applySpamGate_is_spam (subject body : Str) (r : Verdict) :
    (applySpamGate subject body r).is_spam
      = (r.is_spam || decide (0.5 < check_spam_indicators subject body)) := by
  unfold applySpamGate
  dsimp only
  split <;> simp [*]

theorem applySpamGate_is_university_notice (subject body : Str) (r : Verdict) :
    (applySpamGate subject body r).is_university_notice = r.is_university_notice := by
  unfold applySpamGate
  dsimp only
  split <;> rfl

theorem applySpamGate_category (subject body : Str) (r : Verdict) :
    (applySpamGate subject body r).category = r.category := by
  unfold applySpamGate
  dsimp only
  split <;> rfl

theorem applySpamGate_spam_indicators (subject body : Str) (r : Verdict) :
    (applySpamGate subject body r).spam_indicators = r.spam_indicators := by
  unfold applySpamGate
  dsimp only
  split <;> rfl

theorem applyUrgency_is_spam (subject : Str) (r : Verdict) :
    (applyUrgency subject r).is_spam = r.is_spam := by
  unfold applyUrgency
  repeat' split
  all_goals rfl

theorem applyUrgency_is_university_notice (subject : Str) (r : Verdict) :
    (applyUrgency subject r).is_university_notice = r.is_university_notice := by
  unfold applyUrgency
  repeat' split
  all_goals rfl

theorem applyUrgency_category (subject : Str) (r : Verdict) :
    (applyUrgency subject r).category = r.category := by
  unfold applyUrgency
  repeat' split
  all_goals rfl

theorem applyPortal_is_spam (body : Str) (r : Verdict) :
    (applyPortal body r).is_spam = r.is_spam := by
  unfold applyPortal
  split <;> rfl

theorem applyPortal_is_university_notice (body : Str) (r : Verdict) :
    (applyPortal body r).is_university_notice
      = (r.is_university_notice || portalHit body) := by
  unfold applyPortal
  split <;> simp [*]

theorem applyPortal_category (body : Str) (r : Verdict) :
    (applyPortal body r).category = r.category := by
  unfold applyPortal
  split <;> rfl

theorem applyUniversityLock_is_spam (r : Verdict) :
    (applyUniversityLock r).is_spam = r.is_spam := by
  unfold applyUniversityLock
  split <;> rfl

theorem applyUniversityLock_is_university_notice (r : Verdict) :
    (applyUniversityLock r).is_university_notice = r.is_university_notice := by
  unfold applyUniversityLock
  split <;> rfl

theorem applyUniversityLock_category (r : Verdict) :
    (applyUniversityLock r).category = r.category := by
  unfold applyUniversityLock
  split <;> rfl

theorem finalize_is_spam (t : ℚ) (r : Verdict) : (finalize t r).is_spam = r.is_spam := rfl

theorem finalize_is_university_notice (t : ℚ) (r : Verdict) :
    (finalize t r).is_university_notice = r.is_university_notice := rfl

theorem finalize_category (t : ℚ) (r : Verdict) : (finalize t r).category = r.category := rfl

theorem finalize_is_important (t : ℚ) (r : Verdict) :
    (finalize t r).is_important = decide (t ≤ r.priority_score) := rfl

theorem finalize_priority_score (t : ℚ) (r : Verdict) :
    (finalize t r).priority_score = max 0 (min 1 r.priority_score) := rfl

/-! ### Auxiliary lemmas -/

/-- For a threshold in the half-open interval (0, 1], comparing against the
clamped score agrees with comparing against the raw score. -/
theorem le_clamp_iff {t x : ℚ} (h1 : 0 < t) (h2 : t ≤ 1) :
    t ≤ max 0 (min 1 x) ↔ t ≤ x := by
  rcases le_total x 0 with hx | hx
  · have hmin : min 1 x = x := min_eq_right (hx.trans zero_le_one)
    rw [hmin, max_eq_left hx]
    exact iff_of_false (not_le.mpr h1) (fun h => (not_le.mpr h1) (h.trans hx))
  · rcases le_total 1 x with hx1 | hx1
    · rw [min_eq_left hx1, max_eq_right zero_le_one]
      exact iff_of_true h2 (h2.trans hx1)
    · rw [min_eq_right hx1, max_eq_right hx]

/-- Folding the `split` step over a string free of the separator appends the
whole string to the accumulator. -/
theorem afterLastSplit_foldl (sep : Char) :
    ∀ (s : Str) (acc : Str), sep ∉ s →
      s.foldl (fun acc c => if c = sep then [] else acc ++ [c]) acc = acc ++ s := by
  intro s
  induction s with
  | nil => intro acc _; simp
  | cons c rest ih =>
      intro acc h
      have hc : ¬ c = sep := fun hc => h (by rw [← hc]; exact List.mem_cons_self c rest)
      rw [List.foldl_cons, if_neg hc,
        ih (acc ++ [c]) (fun hm => h (List.mem_cons_of_mem c hm))]
      simp

/-- `sender.split('@')[-1]` on a sender containing no `@` is the whole
sender string. -/
theorem afterLastSplit_no_sep (sep : Char) (s : Str) (h : sep ∉ s) :
    afterLastSplit sep s = s := by
  unfold afterLastSplit
  rw [afterLastSplit_foldl sep s [] h]
  rfl

/-- The is-spam flag after the whole pre-final pipeline, as a disjunction of
the three places that can set it. -/
theorem preFinal_is_spam (st : EmailAnalyzer) (sender subject body : Str)
    (prefs : Option UserPreference) :
    (preFinal st sender subject body prefs).is_spam
      = ((applyPreferences sender prefs initial_results).is_spam
          || decide (sender_domain sender ∈ st.common_spam_domains)
          || decide ((0.5 : ℚ) < check_spam_indicators subject body)) := by
  unfold preFinal
  rw [applyUniversityLock_is_spam, applyPortal_is_spam, applyUrgency_is_spam,
    applySpamGate_is_spam, applySpamKeywords_is_spam, applyCategoryBonus_is_spam,
    applyUniversityKeywords_is_spam, applyCategorize_is_spam, applyEduCheck_is_spam,
    applySpamDomainCheck_is_spam]

/-- The university-notice flag of an untrained scorer after the pre-final
pipeline: only the portal-phrase check can set it. -/
theorem preFinal_untrained_university_notice (sender subject body : Str)
    (prefs : Option UserPreference) :
    (preFinal ⟨[], [], []⟩ sender subject body prefs).is_university_notice
      = portalHit body := by
  unfold preFinal
  rw [applyUniversityLock_is_university_notice, applyPortal_is_university_notice,
    applyUrgency_is_university_notice, applySpamGate_is_university_notice,
    applySpamKeywords_untrained _ _ _ _ rfl, applyCategoryBonus_is_university_notice,
    applyUniversityKeywords_untrained _ _ _ _ rfl, applyCategorize_is_university_notice,
    applyEduCheck_is_university_notice, applySpamDomainCheck_is_university_notice,
    applyPreferences_is_university_notice]
  rfl

/-- A counting step preserves any predicate holding of every key in the
table, provided it holds of the newly counted element. -/
theorem countStep_fst_mem (P : Str → Prop) (acc : List (Str × Nat)) (d : Str)
    (hacc : ∀ p ∈ acc, P p.1) (hd : P d) : ∀ p ∈ countStep acc d, P p.1 := by
  intro p hp
  unfold countStep at hp
  split at hp
  · rcases List.mem_map.mp hp with ⟨q, hq, rfl⟩
    split <;> exact hacc q hq
  · rcases List.mem_append.mp hp with hq | hq
    · exact hacc p hq
    · rw [List.mem_singleton] at hq
      rw [hq]
      exact hd

/-- Folding counting steps only produces keys satisfying a predicate that
holds of the accumulator keys and of the counted elements. -/
theorem countFold_fst_mem (P : Str → Prop) :
    ∀ (l : List Str) (acc : List (Str × Nat)),
      (∀ p ∈ acc, P p.1) → (∀ x ∈ l, P x) → ∀ p ∈ l.foldl countStep acc, P p.1 := by
  intro l
  induction l with
  | nil => intro acc hacc _ p hp; exact hacc p hp
  | cons d rest ih =>
      intro acc hacc hl p hp
      rw [List.foldl_cons] at hp
      exact ih (countStep acc d)
        (countStep_fst_mem P acc d hacc (hl d (List.mem_cons_self d rest)))
        (fun x hx => hl x (List.mem_cons_of_mem d hx)) p hp

/-- Every key of a frequency table occurs in the counted list. -/
theorem countOccurrences_fst_mem {l : List Str} {p : Str × Nat}
    (hp : p ∈ countOccurrences l) : p.1 ∈ l :=
  countFold_fst_mem (fun x => x ∈ l) l [] (by simp) (fun _ hx => hx) p hp

/-- Once categorization yields Academic, no later pipeline step changes the
category. -/
theorem preFinal_category_academic (st : EmailAnalyzer) (sender subject body : Str)
    (prefs : Option UserPreference) (h : categorize_email subject body = chars "Academic") :
    (preFinal st sender subject body prefs).category = chars "Academic" := by
  unfold preFinal
  rw [applyUniversityLock_category, applyPortal_category, applyUrgency_category,
    applySpamGate_category, applySpamKeywords_category, applyCategoryBonus_category,
    applyUniversityKeywords_category_important, applyCategorize_category]
  · exact h
  · rw [applyCategorize_category, h]
    decide

/-! ### Claims -/

/-- C1 counterexample: with a policy threshold of 0 (a legal policy value,
the UI validates the threshold into [0, 1]) and a trained spam-domain
profile containing the sender's domain, the pre-clamp score is -0.4, so
`is_important` is decided `false` at line 150, but the returned clamped
score is 0 and `0 >= 0` holds: the returned verdict violates
`isImportant = (priorityScore >= threshold)`. -/
theorem C1_counterexample :
    (analyze_email ⟨[], [], [chars "spam.com"]⟩ (chars "a@spam.com") [] []
        (some ⟨[], [], 0⟩)).is_important = false ∧
    thresholdOf (some ⟨[], [], 0⟩)
      ≤ (analyze_email ⟨[], [], [chars "spam.com"]⟩ (chars "a@spam.com") [] []
          (some ⟨[], [], 0⟩)).priority_score ∧
    (analyze_email ⟨[], [], [chars "spam.com"]⟩ (chars "a@spam.com") [] []
        (some ⟨[], [], 0⟩)).is_important
      ≠ decide (thresholdOf (some ⟨[], [], 0⟩)
          ≤ (analyze_email ⟨[], [], [chars "spam.com"]⟩ (chars "a@spam.com") [] []
              (some ⟨[], [], 0⟩)).priority_score) := by
  with_unfolding_all decide

/-- C1 (amended): for every call whose effective threshold lies in (0, 1]
(in particular for the 0.7 default, and for every UI-validated positive
threshold), the returned `isImportant` equals exactly the comparison of the
returned `priorityScore` against the threshold; the comparison at line 150
is made against the pre-clamp score, and for thresholds in (0, 1] clamping
cannot change its outcome. -/
theorem C1_amended_importance_threshold (st : EmailAnalyzer) (sender subject body : Str)
    (prefs : Option UserPreference)
    (h1 : 0 < thresholdOf prefs) (h2 : thresholdOf prefs ≤ 1) :
    (analyze_email st sender subject body prefs).is_important
      = decide (thresholdOf prefs
          ≤ (analyze_email st sender subject body prefs).priority_score) := by
  unfold analyze_email
  rw [finalize_is_important, finalize_priority_score]
  exact (decide_eq_decide.mpr (le_clamp_iff h1 h2)).symm

/-- C1 witness: the amended statement instantiated at a policy-free call
(threshold 0.7). -/
theorem C1_witness :
    (0 < thresholdOf none ∧ thresholdOf none ≤ 1) ∧
    (analyze_email ⟨[], [], []⟩ (chars "a@b.c") [] [] none).is_important
      = decide (thresholdOf none
          ≤ (analyze_email ⟨[], [], []⟩ (chars "a@b.c") [] [] none).priority_score) :=
  ⟨⟨by with_unfolding_all decide, by with_unfolding_all decide⟩,
    C1_amended_importance_threshold ⟨[], [], []⟩ (chars "a@b.c") [] [] none
      (by with_unfolding_all decide) (by with_unfolding_all decide)⟩

/-- C2 counterexample: an untrained scorer (all three profiles empty) still
sets `isUniversityNotice` when the body contains a university-portal phrase
(`email_analyzer.py` lines 134-138), contradicting the claim that an
untrained scorer never sets it. -/
theorem C2_counterexample :
    (analyze_email ⟨[], [], []⟩ [] [] (chars "login to the portal")
        (some ⟨[], [], 0.7⟩)).is_university_notice = true := by
  with_unfolding_all decide

/-- C2 (amended): an untrained scorer never applies the keyword-match
bonus or penalty (both keyword steps are the identity when their profile is
empty), and its returned `isUniversityNotice` is true exactly when the body
contains a university-portal phrase - the portal check is independent of
training, so the flag is false only in the absence of a portal phrase. -/
theorem C2_amended_untrained :
    (∀ (sender subject body : Str) (prefs : Option UserPreference),
        (analyze_email ⟨[], [], []⟩ sender subject body prefs).is_university_notice
          = portalHit body) ∧
    (∀ (st : EmailAnalyzer) (subject body : Str) (r : Verdict),
        st.university_keywords = [] → applyUniversityKeywords st subject body r = r) ∧
    (∀ (st : EmailAnalyzer) (subject body : Str) (r : Verdict),
        st.spam_keywords = [] → applySpamKeywords st subject body r = r) := by
  refine ⟨?_, applyUniversityKeywords_untrained, applySpamKeywords_untrained⟩
  intro sender subject body prefs
  unfold analyze_email
  rw [finalize_is_university_notice, preFinal_untrained_university_notice]

/-- C2 witness: the amended statement instantiated at an untrained scorer
and a portal-free body. -/
theorem C2_witness :
    ((⟨[], [], []⟩ : EmailAnalyzer).university_keywords = []) ∧
    applyUniversityKeywords ⟨[], [], []⟩ (chars "s") (chars "b") initial_results
      = initial_results ∧
    (analyze_email ⟨[], [], []⟩ (chars "a@b.c") (chars "s") (chars "b") none).is_university_notice
      = portalHit (chars "b") :=
  ⟨rfl,
    C2_amended_untrained.2.1 ⟨[], [], []⟩ (chars "s") (chars "b") initial_results rfl,
    C2_amended_untrained.1 (chars "a@b.c") (chars "s") (chars "b") none⟩

/-- C3 counterexample: a row labelled `university notice` (with a space) is
NOT dropped: `data_processor.py` line 101 matches exactly that literal
case-insensitively and stores the row under the `university_notice` key. -/
theorem C3_counterexample :
    (get_training_data
        [⟨some (chars "a@b.edu"), none, none, none, chars "university notice"⟩]).university_notice
      = [⟨chars "a@b.edu", [], [], []⟩] := by
  decide

/-- C3 (amended): every row whose lowercased label is not exactly `spam`,
`ham` or `university notice` is silently dropped from the categorized
corpus (filtering such rows out does not change the result); the literal
`university notice` (with a space) IS recognized - it is mapped to the
`university_notice` bucket - while `university_notice` (with an
underscore) is among the dropped labels. -/
theorem C3_amended_label_matching :
    (∀ rows : List Row,
        get_training_data (rows.filter (fun row => isRecognizedLabel row.label))
          = get_training_data rows) ∧
    isRecognizedLabel (chars "university notice") = true ∧
    isRecognizedLabel (chars "university_notice") = false := by
  refine ⟨?_, by decide, by decide⟩
  intro rows
  induction rows with
  | nil => rfl
  | cons row rest ih =>
      by_cases h : isRecognizedLabel row.label = true
      · rw [List.filter_cons, if_pos h]
        simp only [get_training_data]
        rw [ih]
      · have h2 : ¬ (lowerStr row.label = chars "spam"
            ∨ lowerStr row.label = chars "ham"
            ∨ lowerStr row.label = chars "university notice") := by
          intro hor
          exact h (by simp [isRecognizedLabel, hor])
        push_neg at h2
        rw [List.filter_cons, if_neg h]
        simp only [get_training_data]
        rw [if_neg h2.1, if_neg h2.2.1, if_neg h2.2.2]
        exact ih

/-- C4 counterexample: a spam record whose sender contains no `@`
contributes nothing to the spam domain profile (`email_analyzer.py`
line 246 guards on `'@' in sender`), whereas the claimed full-sender
fallback would put the whole sender string in the profile. -/
theorem C4_counterexample :
    extract_common_spam_domains
        [⟨chars "nodomain", [], [], []⟩] = [] ∧
    deriveDomainProfile_specVersion
        [⟨chars "nodomain", [], [], []⟩]
      = [chars "nodomain"] ∧
    extract_common_spam_domains
        [⟨chars "nodomain", [], [], []⟩]
      ≠ deriveDomainProfile_specVersion
          [⟨chars "nodomain", [], [], []⟩] := by
  decide

/-- C4 (amended): the spam domain profile is derived from spam records only
by taking, for each record whose sender contains `@`, the lowercased
substring after the last `@` (records without `@` are skipped), counting
frequencies, and keeping the (at most) top 10 entries of the frequency
table stably sorted by descending count. -/
theorem C4_amended_domain_profile (spam : List EmailData) :
    (extract_common_spam_domains spam).length ≤ 10 ∧
    (∀ d ∈ extract_common_spam_domains spam,
        ∃ e ∈ spam, ('@' ∈ e.sender) ∧ d = lowerStr (afterLastSplit '@' e.sender)) ∧
    List.Sorted byCountDesc (most_common 10 (countOccurrences (spamDomainsOf spam))) := by
  refine ⟨?_, ?_, ?_⟩
  · unfold extract_common_spam_domains
    split
    · simp
    · rw [List.length_map]
      unfold most_common
      rw [List.length_take]
      exact min_le_left _ _
  · intro d hd
    unfold extract_common_spam_domains at hd
    split at hd
    · simp at hd
    · rcases List.mem_map.mp hd with ⟨p, hp, rfl⟩
      have hp2 : p ∈ List.insertionSort byCountDesc (countOccurrences (spamDomainsOf spam)) :=
        (List.take_sublist _ _).mem hp
      have hp3 : p ∈ countOccurrences (spamDomainsOf spam) :=
        (List.mem_insertionSort byCountDesc).mp hp2
      have hp4 : p.1 ∈ spamDomainsOf spam := countOccurrences_fst_mem hp3
      rcases List.mem_filterMap.mp hp4 with ⟨e, he, hfe⟩
      refine ⟨e, he, ?_⟩
      by_cases hat : '@' ∈ e.sender
      · rw [if_pos hat] at hfe
        exact ⟨hat, (Option.some_injective _ hfe).symm⟩
      · rw [if_neg hat] at hfe
        cases hfe
  · exact List.Pairwise.sublist (List.take_sublist 10 _)
      (List.sorted_insertionSort byCountDesc _)

/-- C4 witness: the amended membership characterization instantiated at a
one-record corpus whose sender domain is uppercased in the address. -/
theorem C4_witness :
    (chars "a.com" ∈ extract_common_spam_domains
        [⟨chars "x@A.com", [], [], []⟩]) ∧
    ∃ e ∈ ([⟨chars "x@A.com", [], [], []⟩] : List EmailData),
      ('@' ∈ e.sender) ∧ chars "a.com" = lowerStr (afterLastSplit '@' e.sender) :=
  ⟨by decide,
    (C4_amended_domain_profile
        [⟨chars "x@A.com", [], [], []⟩]).2.1
      (chars "a.com") (by decide)⟩

/-- C5 (confirmed): for every call to `analyze_email` - any inputs, any
policy, any profile state - the returned priority score lies in [0, 1],
because the final clamp at line 153 returns `max 0 (min 1 score)`. -/
theorem C5_priority_score_in_unit_interval (st : EmailAnalyzer) (sender subject body : Str)
    (prefs : Option UserPreference) :
    0 ≤ (analyze_email st sender subject body prefs).priority_score ∧
    (analyze_email st sender subject body prefs).priority_score ≤ 1 := by
  unfold analyze_email
  rw [finalize_priority_score]
  exact ⟨le_max_left 0 _, max_le zero_le_one (min_le_left 1 _)⟩

/-- C6 (confirmed): whenever some blacklist entry of the supplied policy is
a case-insensitive substring of the sender, the returned verdict has
`isSpam = true`, regardless of subject, body, profile state, and the other
policy entries (including whitelist matches): the blacklist loop sets the
flag and no later step ever resets it. -/
theorem C6_blocked_sender_is_spam (st : EmailAnalyzer) (sender subject body : Str)
    (p : UserPreference)
    (h : ∃ b ∈ get_blacklist p, containsSub (lowerStr b) (lowerStr sender) = true) :
    (analyze_email st sender subject body (some p)).is_spam = true := by
  unfold analyze_email
  rw [finalize_is_spam, preFinal_is_spam]
  have hb : (applyPreferences sender (some p) initial_results).is_spam = true := by
    show (applyBlacklist sender (get_blacklist p)
        (applyWhitelist sender (get_whitelist p) initial_results)).is_spam = true
    rw [applyBlacklist_is_spam]
    rcases h with ⟨b, hbmem, hbc⟩
    rw [List.any_eq_true.mpr ⟨b, hbmem, hbc⟩, Bool.or_true]
  rw [hb]
  rfl

/-- C6 witness: a blacklisted sender (case-insensitive match, whitelist also
matching) at a concrete call. -/
theorem C6_witness :
    (∃ b ∈ get_blacklist ⟨chars "bad", chars "bad", 0.7⟩,
        containsSub (lowerStr b) (lowerStr (chars "BAD@x.com")) = true) ∧
    (analyze_email ⟨[], [], []⟩ (chars "BAD@x.com") (chars "s") (chars "b")
        (some ⟨chars "bad", chars "bad", 0.7⟩)).is_spam = true :=
  ⟨by decide, C6_blocked_sender_is_spam ⟨[], [], []⟩ (chars "BAD@x.com") (chars "s")
      (chars "b") ⟨chars "bad", chars "bad", 0.7⟩ (by decide)⟩

/-- C7 (confirmed): if the lowercased subject-plus-body contains the
Academic keyword `lecture` and the Event keyword `seminar`, categorization
returns Academic - the Academic rule is tested first and the first match
wins - and the returned verdict's category is Academic for every profile
state and policy (the university-keyword step never overwrites a category
already in the important set). -/
theorem C7_academic_before_event (subject body : Str)
    (h1 : containsSub (chars "lecture") (lowerStr subject ++ [' '] ++ lowerStr body) = true)
    (_h2 : containsSub (chars "seminar") (lowerStr subject ++ [' '] ++ lowerStr body) = true) :
    categorize_email subject body = chars "Academic" ∧
    ∀ (st : EmailAnalyzer) (sender : Str) (prefs : Option UserPreference),
      (analyze_email st sender subject body prefs).category = chars "Academic" := by
  have hacad : academic_words.any
      (fun w => containsSub w (lowerStr subject ++ [' '] ++ lowerStr body)) = true :=
    List.any_eq_true.mpr ⟨chars "lecture", by decide, h1⟩
  have hcat : categorize_email subject body = chars "Academic" := by
    unfold categorize_email
    dsimp only
    rw [if_pos hacad]
  refine ⟨hcat, ?_⟩
  intro st sender prefs
  unfold analyze_email
  rw [finalize_category]
  exact preFinal_category_academic st sender subject body prefs hcat

/-- C7 witness: a subject containing `lecture` and a body containing
`seminar`. -/
theorem C7_witness :
    (containsSub (chars "lecture")
        (lowerStr (chars "lecture today") ++ [' '] ++ lowerStr (chars "and a seminar")) = true) ∧
    (containsSub (chars "seminar")
        (lowerStr (chars "lecture today") ++ [' '] ++ lowerStr (chars "and a seminar")) = true) ∧
    categorize_email (chars "lecture today") (chars "and a seminar") = chars "Academic" :=
  ⟨by decide, by decide,
    (C7_academic_before_event (chars "lecture today") (chars "and a seminar")
        (by decide) (by decide)).1⟩

/-- C8 (confirmed): `analyze_email` is a total function of its string
inputs - the embedding has no error value, mirroring the absence of any
raising operation in the source - and a sender containing no `@` degrades
gracefully: the domain used by the domain checks is the whole lowercased
sender string. -/
theorem C8_total_and_no_at_degrades (st : EmailAnalyzer) (sender subject body : Str)
    (prefs : Option UserPreference) :
    (∃ v : Verdict, analyze_email st sender subject body prefs = v) ∧
    ('@' ∉ sender → sender_domain sender = lowerStr sender) := by
  refine ⟨⟨_, rfl⟩, fun h => ?_⟩
  unfold sender_domain
  rw [afterLastSplit_no_sep '@' sender h]

/-- C8 witness: a concrete sender without `@`. -/
theorem C8_witness :
    ('@' ∉ chars "deanuniversity.edu") ∧
    sender_domain (chars "deanuniversity.edu") = lowerStr (chars "deanuniversity.edu") :=
  ⟨by decide,
    (C8_total_and_no_at_degrades ⟨[], [], []⟩ (chars "deanuniversity.edu") [] [] none).2
      (by decide)⟩

/-- C9 (confirmed): `analyze_email` is deterministic - two calls with equal
sender, subject, body, policy and equal profile state return equal verdicts
in every field, including the order and contents of both indicator lists
(the embedding is a pure function; the source reads no randomness and does
no I/O in this code path). -/
theorem C9_deterministic (st1 st2 : EmailAnalyzer)
    (sender1 sender2 subject1 subject2 body1 body2 : Str)
    (prefs1 prefs2 : Option UserPreference)
    (hst : st1 = st2) (hsender : sender1 = sender2) (hsubject : subject1 = subject2)
    (hbody : body1 = body2) (hprefs : prefs1 = prefs2) :
    analyze_email st1 sender1 subject1 body1 prefs1
      = analyze_email st2 sender2 subject2 body2 prefs2 := by
  subst hst hsender hsubject hbody hprefs
  rfl

/-- C9 witness: two identical concrete calls. -/
theorem C9_witness :
    analyze_email ⟨[], [], []⟩ (chars "a@b.c") (chars "s") (chars "b") none
      = analyze_email ⟨[], [], []⟩ (chars "a@b.c") (chars "s") (chars "b") none :=
  C9_deterministic ⟨[], [], []⟩ ⟨[], [], []⟩ (chars "a@b.c") (chars "a@b.c")
    (chars "s") (chars "s") (chars "b") (chars "b") none none rfl rfl rfl rfl rfl

/-- C10 (confirmed): the structural spam gate never appends to the
verdict's `spam_indicators`; when the sub-score exceeds 0.5 it sets
`isSpam` and lowers the score to `max 0 (score - subScore)`; the indicator
strings built inside `_check_spam_indicators` are discarded at its
`return spam_score`, and concretely a verdict can come back with
`isSpam = true` and an empty `spamIndicators` list while the discarded
internal list was non-empty. -/
theorem C10_gate_discards_indicators :
    (∀ (subject body : Str) (r : Verdict),
        (applySpamGate subject body r).spam_indicators = r.spam_indicators ∧
        (0.5 < check_spam_indicators subject body →
          (applySpamGate subject body r).is_spam = true ∧
          (applySpamGate subject body r).priority_score
            = max 0 (r.priority_score - check_spam_indicators subject body))) ∧
    ((analyze_email ⟨[], [], []⟩ (chars "x") (chars "YOU WON A LOTTERY!!!")
        (chars "claim your prize") none).is_spam = true ∧
     (analyze_email ⟨[], [], []⟩ (chars "x") (chars "YOU WON A LOTTERY!!!")
        (chars "claim your prize") none).spam_indicators = [] ∧
     (check_spam_indicators_full (chars "YOU WON A LOTTERY!!!")
        (chars "claim your prize")).2 ≠ []) := by
  constructor
  · intro subject body r
    refine ⟨applySpamGate_spam_indicators subject body r, fun h => ?_⟩
    constructor
    · rw [applySpamGate_is_spam, decide_eq_true h, Bool.or_true]
    · unfold applySpamGate
      dsimp only
      rw [if_pos h]
  · refine ⟨?_, ?_, ?_⟩ <;> with_unfolding_all decide

/-- C10 witness: the gate clause applied at a concrete high-sub-score
input. -/
theorem C10_witness :
    ((0.5 : ℚ) < check_spam_indicators (chars "YOU WON A LOTTERY!!!")
        (chars "claim your prize")) ∧
    (applySpamGate (chars "YOU WON A LOTTERY!!!") (chars "claim your prize")
        initial_results).is_spam = true ∧
    (applySpamGate (chars "YOU WON A LOTTERY!!!") (chars "claim your prize")
        initial_results).spam_indicators = initial_results.spam_indicators :=
  ⟨by with_unfolding_all decide,
    ((C10_gate_discards_indicators.1 (chars "YOU WON A LOTTERY!!!")
        (chars "claim your prize") initial_results).2
      (by with_unfolding_all decide)).1,
    (C10_gate_discards_indicators.1 (chars "YOU WON A LOTTERY!!!")
        (chars "claim your prize") initial_results).1⟩
